import Mathlib

/-!
AquaIntel groundwater monitoring app: verification of the station-data
synthesis and forecasting core (the Water-Quality Scorer, the Trend
Classifier, the Forecast Generator and the Station Population Synthesizer)
against its specification.

Embedding conventions:
* JavaScript `number` is idealised as `ℚ` (exact rational arithmetic); the
  properties under study concern the algebra of the formulas, not IEEE-754
  rounding error.
* `Math.round` rounds half toward positive infinity, i.e. `⌊x + 1/2⌋`
  (`jsRound` below); `toFixed(3)` rounds ties the same way at 3 decimals.
* Each `Math.random()` call is threaded as an explicit parameter ranging over
  `[0, 1)`; `Math.sin` values are threaded as an oracle `ℕ → ℚ` assumed
  bounded by 1 in absolute value (a bound the true sine satisfies), since its
  exact values are not rational.
* Calendar dates (ISO `YYYY-MM-DD` strings in the source) are modelled as
  integers counting days; JavaScript `setDate` day stepping is exact integer
  day arithmetic.
-/

namespace AquaIntel

/-- JS `Math.round`: round half toward positive infinity. -/
def jsRound (q : ℚ) : ℤ := ⌊q + 1/2⌋

/-- `Math.round(x * 10) / 10` — one decimal. -/
def round1 (q : ℚ) : ℚ := (jsRound (q * 10) : ℚ) / 10

/-- `Math.round(x * 100) / 100` — two decimals. -/
def round2 (q : ℚ) : ℚ := (jsRound (q * 100) : ℚ) / 100

/-- `parseFloat(x.toFixed(3))` — three decimals. -/
def round3 (q : ℚ) : ℚ := (jsRound (q * 1000) : ℚ) / 1000

/-- The four categorical water-quality statuses. -/
inductive QualityStatus
  | excellent
  | good
  | fair
  | poor
  deriving DecidableEq, Repr

/-- `calculateQualityIndex` from `utils/csvLoader.ts` (lines 182–191): average
of a pH factor and a dissolved-oxygen factor.  Note: this variant returns the
average with NO rounding. -/
def calculateQualityIndex (pH dissolvedOxygen : ℚ) : ℚ :=
  let pHFactor := max 0 (100 - |pH - 7.0| * 20)
  let doFactor := min 100 (dissolvedOxygen * 10)
  (pHFactor + doFactor) / 2

/-- `getQualityStatus` from `utils/csvLoader.ts` (lines 193–198). -/
def getQualityStatus (qualityIndex : ℚ) : QualityStatus :=
  if qualityIndex ≥ 80 then .excellent
  else if qualityIndex ≥ 60 then .good
  else if qualityIndex ≥ 40 then .fair
  else .poor

/-- The `WaterQuality` record of `app/charts.tsx`. -/
structure WaterQuality where
  pH : ℚ
  dissolved_oxygen : ℚ
  quality_index : ℚ
  status : QualityStatus
  deriving DecidableEq, Repr

/-- `calculateWaterQuality` from `app/charts.tsx` (lines 1748–1773): the
mock-station scorer variant.  The returned `quality_index` is
`Math.round` of the average, but the `status` is computed from the
UNROUNDED average. -/
def calculateWaterQuality (pH dissolvedOxygen : ℚ) : WaterQuality :=
  let pHFactor := max 0 (100 - |pH - 7.0| * 20)
  let doFactor := min 100 (dissolvedOxygen / 10 * 100)
  let qualityIndex := (pHFactor + doFactor) / 2
  { pH := pH
    dissolved_oxygen := dissolvedOxygen
    quality_index := (jsRound qualityIndex : ℚ)
    status :=
      if qualityIndex ≥ 80 then .excellent
      else if qualityIndex ≥ 60 then .good
      else if qualityIndex ≥ 40 then .fair
      else .poor }

theorem jsRound_nonneg {q : ℚ} (h : 0 ≤ q) : (0 : ℚ) ≤ (jsRound q : ℚ) := by
  have h1 : (0 : ℤ) ≤ ⌊q + 1/2⌋ := Int.le_floor.mpr (by push_cast; linarith)
  unfold jsRound
  exact_mod_cast h1

theorem jsRound_le_hundred {q : ℚ} (h : q ≤ 100) : (jsRound q : ℚ) ≤ 100 := by
  have h1 : ((⌊q + 1/2⌋ : ℤ) : ℚ) ≤ q + 1/2 := Int.floor_le _
  have h2 : ((⌊q + 1/2⌋ : ℤ) : ℚ) < 101 := by linarith
  have h3 : (⌊q + 1/2⌋ : ℤ) < 101 := by exact_mod_cast h2
  have h4 : (⌊q + 1/2⌋ : ℤ) ≤ 100 := by omega
  unfold jsRound
  exact_mod_cast h4

/-- Characterisation of the threshold status function: the thresholds are
inclusive lower bounds checked in descending order. -/
theorem getQualityStatus_iff (q : ℚ) :
    (getQualityStatus q = .excellent ↔ 80 ≤ q) ∧
    (getQualityStatus q = .good ↔ 60 ≤ q ∧ q < 80) ∧
    (getQualityStatus q = .fair ↔ 40 ≤ q ∧ q < 60) ∧
    (getQualityStatus q = .poor ↔ q < 40) := by
  unfold getQualityStatus
  split_ifs with h1 h2 h3 <;>
    refine ⟨?_, ?_, ?_, ?_⟩ <;>
      simp <;>
        first
          | linarith
          | (rintro ⟨a, b⟩; linarith)
          | (constructor <;> linarith)
          | (intro hx; linarith)

/-- Claim C1 fails on the code: at pH = 7.05, dissolved oxygen = 6, the
CSV-variant scorer returns the UNROUNDED index 79.5, not the claimed
round(79.5) = 80; and the mock-station variant returns quality_index = 80
with status `good`, contradicting the claimed "status is excellent iff the
index is ≥ 80". -/
theorem quality_round_claim_fails :
    calculateQualityIndex 7.05 6 = 79.5 ∧
    (79.5 : ℚ) ≠ ((jsRound 79.5 : ℤ) : ℚ) ∧
    (calculateWaterQuality 7.05 6).quality_index = 80 ∧
    (calculateWaterQuality 7.05 6).status = QualityStatus.good := by
  have habs : |(7.05 : ℚ) - 7.0| = 0.05 := by
    rw [abs_of_nonneg] <;> norm_num
  refine ⟨?_, ?_, ?_, ?_⟩
  · unfold calculateQualityIndex
    rw [habs]
    norm_num [max_def, min_def]
  · norm_num [jsRound]
  · unfold calculateWaterQuality
    rw [habs]
    norm_num [max_def, min_def, jsRound]
  · unfold calculateWaterQuality
    rw [habs]
    norm_num [max_def, min_def]

/-- Claim C1 (amended): both scorer variants compute the same unrounded
average index (their dissolved-oxygen factors `do·10` and `(do/10)·100` are
algebraically identical); the CSV variant returns that average unrounded,
while the mock-station variant returns `Math.round` of it; in both variants
the status is determined by the UNROUNDED average through thresholds that
are inclusive lower bounds checked in descending order: `excellent` iff it
is ≥ 80, `good` iff it is in [60, 80), `fair` iff it is in [40, 60), and
`poor` iff it is below 40. -/
theorem quality_scorers_characterised (pH dOx : ℚ) :
    calculateQualityIndex pH dOx
      = (max 0 (100 - |pH - 7| * 20) + min 100 (dOx * 10)) / 2 ∧
    (calculateWaterQuality pH dOx).quality_index
      = ((jsRound (calculateQualityIndex pH dOx) : ℤ) : ℚ) ∧
    (calculateWaterQuality pH dOx).status
      = getQualityStatus (calculateQualityIndex pH dOx) ∧
    (getQualityStatus (calculateQualityIndex pH dOx) = .excellent
      ↔ 80 ≤ calculateQualityIndex pH dOx) ∧
    (getQualityStatus (calculateQualityIndex pH dOx) = .good
      ↔ 60 ≤ calculateQualityIndex pH dOx ∧ calculateQualityIndex pH dOx < 80) ∧
    (getQualityStatus (calculateQualityIndex pH dOx) = .fair
      ↔ 40 ≤ calculateQualityIndex pH dOx ∧ calculateQualityIndex pH dOx < 60) ∧
    (getQualityStatus (calculateQualityIndex pH dOx) = .poor
      ↔ calculateQualityIndex pH dOx < 40) := by
  have hdo : dOx / 10 * 100 = dOx * 10 := by ring
  obtain ⟨he, hg, hf, hp⟩ := getQualityStatus_iff (calculateQualityIndex pH dOx)
  refine ⟨by norm_num [calculateQualityIndex], ?_, ?_, he, hg, hf, hp⟩
  · simp only [calculateWaterQuality, calculateQualityIndex, hdo]
  · simp only [calculateWaterQuality, calculateQualityIndex, getQualityStatus, hdo]

/-- The three categorical trends. -/
inductive Trend
  | rising
  | falling
  | stable
  deriving DecidableEq, Repr

/-- `stationData.slice(-5)`: the window of the last (at most) five values. -/
def recentWindow (levels : List ℚ) : List ℚ := levels.drop (levels.length - 5)

/-- The display trend classifier inlined in `processDataIntoStations`
(`utils/csvLoader.ts` lines 145–153), on the levels of the recent window:
`trend` starts as `stable`; when the window has more than one point it becomes
`rising` when the last level exceeds 1.05 times the first, else `falling` when
the last level is below 0.95 times the first. -/
def recentTrend (recentData : List ℚ) : Trend :=
  if recentData.length > 1 then
    let firstLevel := recentData.getD 0 0
    let lastLevel := recentData.getD (recentData.length - 1) 0
    if lastLevel > firstLevel * 1.05 then .rising
    else if lastLevel < firstLevel * 0.95 then .falling
    else .stable
  else .stable

/-- Claim C10 fails on the code: on the window `[-10, -10, -10, -10, -10]`
(first value f = -10, last value l = -10) the classifier returns `rising`
because the `l > f × 1.05` branch is checked first, even though `l < f × 0.95`
also holds — so "falling iff l < f × 0.95" is false as stated. -/
theorem recentTrend_claim_fails :
    recentTrend (recentWindow [-10, -10, -10, -10, -10]) = Trend.rising ∧
    (-10 : ℚ) < -10 * 0.95 := by
  constructor
  · show recentTrend [-10, -10, -10, -10, -10] = Trend.rising
    unfold recentTrend
    norm_num
  · norm_num

/-- Claim C10 (amended): on the window of the last five points of a series
with first value f and last value l, the classifier returns `stable` whenever
the window has fewer than 2 points, and otherwise returns `rising` iff
`l > f × 1.05`, returns `falling` iff `l < f × 0.95` AND NOT `l > f × 1.05`
(the rising test is checked first), and returns `stable` otherwise. -/
theorem recentTrend_characterised (series : List ℚ) :
    ((recentWindow series).length < 2 →
      recentTrend (recentWindow series) = Trend.stable) ∧
    (2 ≤ (recentWindow series).length →
      (recentTrend (recentWindow series) = Trend.rising ↔
        (recentWindow series).getD ((recentWindow series).length - 1) 0 >
          (recentWindow series).getD 0 0 * 1.05) ∧
      (recentTrend (recentWindow series) = Trend.falling ↔
        ¬ (recentWindow series).getD ((recentWindow series).length - 1) 0 >
            (recentWindow series).getD 0 0 * 1.05 ∧
          (recentWindow series).getD ((recentWindow series).length - 1) 0 <
            (recentWindow series).getD 0 0 * 0.95) ∧
      (recentTrend (recentWindow series) = Trend.stable ↔
        ¬ (recentWindow series).getD ((recentWindow series).length - 1) 0 >
            (recentWindow series).getD 0 0 * 1.05 ∧
          ¬ (recentWindow series).getD ((recentWindow series).length - 1) 0 <
            (recentWindow series).getD 0 0 * 0.95)) := by
  unfold recentTrend
  constructor
  · intro h
    rw [if_neg (by omega)]
  · intro h
    rw [if_pos (by omega)]
    simp only [gt_iff_lt]
    split_ifs with h1 h2 <;> simp_all

/-- Concrete instantiation of the amended C10 characterisation. -/
theorem recentTrend_characterised_witness :
    recentTrend (recentWindow [10, 10, 10, 10, 11]) = Trend.rising ↔
      (recentWindow [10, 10, 10, 10, 11]).getD
          ((recentWindow [10, 10, 10, 10, 11]).length - 1) 0 >
        (recentWindow [10, 10, 10, 10, 11]).getD 0 0 * 1.05 :=
  ((recentTrend_characterised [10, 10, 10, 10, 11]).2 (by decide)).1

/-- `sumX` of the loop in `calculateTrendFromData`: sum of the 0-based
indices. -/
def sumX (n : ℕ) : ℚ := ∑ i ∈ Finset.range n, (i : ℚ)

/-- `sumXX` of the loop: sum of squared indices. -/
def sumXX (n : ℕ) : ℚ := ∑ i ∈ Finset.range n, (i : ℚ) * i

/-- `sumY` of the loop: sum of the levels. -/
def sumY (levels : List ℚ) : ℚ := levels.sum

/-- `sumXY` of the loop: sum of index times level. -/
def sumXY (levels : List ℚ) : ℚ :=
  ∑ i ∈ Finset.range levels.length, (i : ℚ) * levels.getD i 0

/-- `calculateTrendFromData` from `utils/csvLoader.ts` (lines 235–252): the
closed-form ordinary-least-squares slope of level against index, with a
degenerate guard for fewer than two points. -/
def calculateTrendFromData (levels : List ℚ) : ℚ :=
  if levels.length < 2 then 0
  else
    ((levels.length : ℚ) * sumXY levels - sumX levels.length * sumY levels) /
      ((levels.length : ℚ) * sumXX levels.length -
        sumX levels.length * sumX levels.length)

theorem sumX_closed (n : ℕ) : sumX n * 2 = (n : ℚ) * ((n : ℚ) - 1) := by
  induction n with
  | zero => simp [sumX]
  | succ m ih =>
    rw [sumX, Finset.sum_range_succ, ← sumX]
    push_cast
    push_cast at ih
    ring_nf
    ring_nf at ih
    linarith

theorem sumXX_closed (n : ℕ) :
    sumXX n * 6 = (n : ℚ) * ((n : ℚ) - 1) * (2 * (n : ℚ) - 1) := by
  induction n with
  | zero => simp [sumXX]
  | succ m ih =>
    rw [sumXX, Finset.sum_range_succ, ← sumXX]
    push_cast
    push_cast at ih
    ring_nf
    ring_nf at ih
    linarith

theorem denom_pos (n : ℕ) (h : 2 ≤ n) :
    0 < (n : ℚ) * sumXX n - sumX n * sumX n := by
  have h2 := sumX_closed n
  have h6 := sumXX_closed n
  have hn : (2 : ℚ) ≤ (n : ℚ) := by exact_mod_cast h
  have key : ((n : ℚ) * sumXX n - sumX n * sumX n) * 12
      = (n : ℚ) ^ 2 * ((n : ℚ) - 1) * ((n : ℚ) + 1) := by
    linear_combination (2 * (n : ℚ)) * h6 +
      (-(6 * sumX n) - 3 * (n : ℚ) * ((n : ℚ) - 1)) * h2
  have hsq : (0 : ℚ) < (n : ℚ) ^ 2 := by nlinarith
  have hprod : (0 : ℚ) < (n : ℚ) ^ 2 * ((n : ℚ) - 1) * ((n : ℚ) + 1) :=
    mul_pos (mul_pos hsq (by linarith)) (by linarith)
  linarith

/-- Claim C2: the trend estimator is total; with at least 2 points it returns
the closed-form OLS slope `(n·Σxy − Σx·Σy) / (n·Σxx − (Σx)²)`, whose
denominator is strictly positive for n ≥ 2 (so no division by zero occurs),
and with fewer than 2 points it returns slope 0. -/
theorem calculateTrendFromData_spec (levels : List ℚ) :
    (levels.length < 2 → calculateTrendFromData levels = 0) ∧
    (2 ≤ levels.length →
      0 < (levels.length : ℚ) * sumXX levels.length -
            sumX levels.length * sumX levels.length ∧
      calculateTrendFromData levels =
        ((levels.length : ℚ) * sumXY levels - sumX levels.length * sumY levels) /
          ((levels.length : ℚ) * sumXX levels.length -
            sumX levels.length * sumX levels.length)) := by
  constructor
  · intro h
    unfold calculateTrendFromData
    rw [if_pos h]
  · intro h
    refine ⟨denom_pos _ h, ?_⟩
    unfold calculateTrendFromData
    rw [if_neg (by omega)]

/-- Concrete instantiation of the C2 trend-estimator specification. -/
theorem calculateTrendFromData_spec_witness :
    0 < (([(0 : ℚ), 1].length : ℚ)) * sumXX [(0 : ℚ), 1].length -
          sumX [(0 : ℚ), 1].length * sumX [(0 : ℚ), 1].length ∧
    calculateTrendFromData [0, 1] =
      ((([(0 : ℚ), 1].length : ℚ)) * sumXY [0, 1] -
          sumX [(0 : ℚ), 1].length * sumY [0, 1]) /
        ((([(0 : ℚ), 1].length : ℚ)) * sumXX [(0 : ℚ), 1].length -
          sumX [(0 : ℚ), 1].length * sumX [(0 : ℚ), 1].length) :=
  (calculateTrendFromData_spec [0, 1]).2 (by decide)

/-- One row of the CSV-derived domain model (`CSVRow` in `csvLoader.ts`);
the ISO `Date` string is modelled as an integer day. -/
structure CSVRow where
  date : ℤ
  waterLevel : ℚ
  temperature : ℚ
  rainfall : ℚ
  pH : ℚ
  dissolvedOxygen : ℚ
  deriving DecidableEq, Repr

/-- One forecast point produced by `generatePredictions`. -/
structure PredictionPoint where
  date : ℤ
  predicted_level : ℚ
  confidence : ℚ
  deriving DecidableEq, Repr

/-- The body of the `for (let i = 1; i <= days; i++)` loop of
`generatePredictions` (`utils/csvLoader.ts` lines 211–230), for loop counter
`i = k + 1`: linear trend term plus seasonal sinusoid plus bounded noise,
clamped at 0 and rounded to 3 decimals, with linearly decaying confidence
floored at 0.5.  `rand i` is the `Math.random()` draw and `sinVal i` the
`Math.sin(2πi/365)` value of forecast day `i`. -/
def predictionPoint (rand sinVal : ℕ → ℚ) (trend lastLevel : ℚ)
    (lastDate : ℤ) (k : ℕ) : PredictionPoint :=
  let i : ℕ := k + 1
  let trendFactor := trend * (i : ℚ) * 0.01
  let seasonalFactor := 0.1 * sinVal i
  let randomFactor := (rand i - 0.5) * 0.05
  let predictedLevel :=
    max 0 (lastLevel + trendFactor + seasonalFactor + randomFactor)
  { date := lastDate + (i : ℤ)
    predicted_level := round3 predictedLevel
    confidence := max 0.5 (1 - (i : ℚ) * 0.01) }

/-- `generatePredictions` from `utils/csvLoader.ts` (lines 200–233).  On an
empty input series the source throws a TypeError
(`historicalData[historicalData.length - 1].Date` is a property access on
`undefined`), modelled as `none`. -/
def generatePredictions (rand sinVal : ℕ → ℚ) (historicalData : List CSVRow)
    (days : ℕ) : Option (List PredictionPoint) :=
  match historicalData.getLast? with
  | none => none
  | some lastRow =>
    let levels := historicalData.map (fun r => r.waterLevel)
    let lastLevel := levels.getD (levels.length - 1) 0
    let trend := calculateTrendFromData levels
    some ((List.range days).map
      (predictionPoint rand sinVal trend lastLevel lastRow.date))

/-- Claim C9: on an empty historical series the forecast generator fails with
an error surfaced to the caller (the source throws on the undefined last
element; there is no catch inside the function) rather than returning an
empty or garbage forecast list. -/
theorem generatePredictions_empty_fails (rand sinVal : ℕ → ℚ) (days : ℕ) :
    generatePredictions rand sinVal [] days = none := rfl

/-- Claim C3: for every non-empty historical series and positive `days`, the
generator returns exactly `days` prediction points whose dates are exactly
`lastDate + (k+1)` for the k-th point — strictly increasing, one calendar day
apart, starting the day after the last historical date. -/
theorem generatePredictions_shape (rand sinVal : ℕ → ℚ)
    (historicalData : List CSVRow) (days : ℕ)
    (hne : historicalData ≠ []) (hdays : 0 < days) :
    ∃ ps : List PredictionPoint,
      generatePredictions rand sinVal historicalData days = some ps ∧
      ps.length = days ∧
      (∀ k (hk : k < ps.length),
        (ps.get ⟨k, hk⟩).date = (historicalData.getLast hne).date + k + 1) ∧
      (∀ j k (hj : j < ps.length) (hk : k < ps.length), j < k →
        (ps.get ⟨j, hj⟩).date < (ps.get ⟨k, hk⟩).date) := by
  have hlast : historicalData.getLast? = some (historicalData.getLast hne) :=
    List.getLast?_eq_getLast _ hne
  unfold generatePredictions
  rw [hlast]
  have hdate : ∀ (trend lastLevel : ℚ) (lastDate : ℤ) (k : ℕ),
      (predictionPoint rand sinVal trend lastLevel lastDate k).date
        = lastDate + k + 1 := by
    intro trend lastLevel lastDate k
    simp only [predictionPoint]
    push_cast
    ring
  refine ⟨_, rfl, by simp, ?_, ?_⟩
  · intro k hk
    simp only [List.get_map, List.get_range, hdate]
  · intro j k hj hk hlt
    simp only [List.get_map, List.get_range, hdate]
    omega

/-- Concrete instantiation of the C3 forecast-shape theorem. -/
theorem generatePredictions_shape_witness :
    ∃ ps : List PredictionPoint,
      generatePredictions (fun _ => 0) (fun _ => 0)
          [⟨0, 10, 0, 0, 7, 8⟩] 2 = some ps ∧
      ps.length = 2 ∧
      (∀ k (hk : k < ps.length),
        (ps.get ⟨k, hk⟩).date =
          (([⟨0, 10, 0, 0, 7, 8⟩] : List CSVRow).getLast
            (List.cons_ne_nil _ _)).date + k + 1) ∧
      (∀ j k (hj : j < ps.length) (hk : k < ps.length), j < k →
        (ps.get ⟨j, hj⟩).date < (ps.get ⟨k, hk⟩).date) :=
  generatePredictions_shape (fun _ => 0) (fun _ => 0) [⟨0, 10, 0, 0, 7, 8⟩] 2
    (List.cons_ne_nil _ _) (by decide)

/-- Claim C4: in every forecast, the confidence of the k-th point (forecast
day d = k+1) equals `max(0.5, 1 − 0.01·d)`; consequently the confidence
sequence is monotonically non-increasing, equals 0.99 at day 1, and equals
exactly 0.5 for every day d ≥ 50. -/
theorem generatePredictions_confidence (rand sinVal : ℕ → ℚ)
    (historicalData : List CSVRow) (days : ℕ) (hne : historicalData ≠ []) :
    ∃ ps : List PredictionPoint,
      generatePredictions rand sinVal historicalData days = some ps ∧
      (∀ k (hk : k < ps.length),
        (ps.get ⟨k, hk⟩).confidence = max 0.5 (1 - ((k : ℚ) + 1) * 0.01)) ∧
      (∀ j k (hj : j < ps.length) (hk : k < ps.length), j ≤ k →
        (ps.get ⟨k, hk⟩).confidence ≤ (ps.get ⟨j, hj⟩).confidence) ∧
      (∀ h0 : 0 < ps.length, (ps.get ⟨0, h0⟩).confidence = 0.99) ∧
      (∀ k (hk : k < ps.length), 50 ≤ k + 1 →
        (ps.get ⟨k, hk⟩).confidence = 0.5) := by
  have hlast : historicalData.getLast? = some (historicalData.getLast hne) :=
    List.getLast?_eq_getLast _ hne
  have hconf : ∀ (trend lastLevel : ℚ) (lastDate : ℤ) (k : ℕ),
      (predictionPoint rand sinVal trend lastLevel lastDate k).confidence
        = max 0.5 (1 - ((k : ℚ) + 1) * 0.01) := by
    intro trend lastLevel lastDate k
    simp only [predictionPoint]
    push_cast
    ring_nf
  unfold generatePredictions
  rw [hlast]
  refine ⟨_, rfl, ?_, ?_, ?_, ?_⟩
  · intro k hk
    simp only [List.get_map, List.get_range, hconf]
  · intro j k hj hk hle
    simp only [List.get_map, List.get_range, hconf]
    refine max_le_max le_rfl ?_
    have : (j : ℚ) ≤ (k : ℚ) := by exact_mod_cast hle
    linarith
  · intro h0
    simp only [List.get_map, List.get_range, hconf]
    norm_num
  · intro k hk h50
    simp only [List.get_map, List.get_range, hconf]
    have : (50 : ℚ) ≤ (k : ℚ) + 1 := by exact_mod_cast h50
    rw [max_eq_left (by linarith)]

/-- Concrete instantiation of the C4 confidence theorem. -/
theorem generatePredictions_confidence_witness :
    ∃ ps : List PredictionPoint,
      generatePredictions (fun _ => 0) (fun _ => 0)
          [⟨0, 10, 0, 0, 7, 8⟩] 60 = some ps ∧
      (∀ k (hk : k < ps.length),
        (ps.get ⟨k, hk⟩).confidence = max 0.5 (1 - ((k : ℚ) + 1) * 0.01)) ∧
      (∀ j k (hj : j < ps.length) (hk : k < ps.length), j ≤ k →
        (ps.get ⟨k, hk⟩).confidence ≤ (ps.get ⟨j, hj⟩).confidence) ∧
      (∀ h0 : 0 < ps.length, (ps.get ⟨0, h0⟩).confidence = 0.99) ∧
      (∀ k (hk : k < ps.length), 50 ≤ k + 1 →
        (ps.get ⟨k, hk⟩).confidence = 0.5) :=
  generatePredictions_confidence (fun _ => 0) (fun _ => 0)
    [⟨0, 10, 0, 0, 7, 8⟩] 60 (List.cons_ne_nil _ _)

/-- Claim C8 fails on the code: for negative dissolved-oxygen input the
dissolved-oxygen factor is not clamped below, so at pH = 7, DO = −30 both
scorer variants return quality_index = −100, outside [0, 100]. -/
theorem quality_bounds_claim_fails :
    calculateQualityIndex 7 (-30) < 0 ∧
    (calculateWaterQuality 7 (-30)).quality_index < 0 := by
  have habs : |(7 : ℚ) - 7.0| = 0 := by norm_num
  constructor
  · unfold calculateQualityIndex
    rw [habs]
    norm_num [max_def, min_def]
  · unfold calculateWaterQuality
    rw [habs]
    norm_num [max_def, min_def, jsRound]

/-- Claim C8 (amended): the quality index of both scorer variants is always
at most 100, and is within [0, 100] whenever the dissolved-oxygen input is
non-negative (the pH factor is clamped below at 0, but the dissolved-oxygen
factor `min(100, do·10)` is only clamped above). -/
theorem quality_index_bounds (pH dOx : ℚ) :
    calculateQualityIndex pH dOx ≤ 100 ∧
    (calculateWaterQuality pH dOx).quality_index ≤ 100 ∧
    (0 ≤ dOx →
      0 ≤ calculateQualityIndex pH dOx ∧
      0 ≤ (calculateWaterQuality pH dOx).quality_index) := by
  have habs : (0 : ℚ) ≤ |pH - 7.0| * 20 := by positivity
  have hA0 : (0 : ℚ) ≤ max 0 (100 - |pH - 7.0| * 20) := le_max_left _ _
  have hA100 : max 0 (100 - |pH - 7.0| * 20) ≤ 100 :=
    max_le (by norm_num) (by linarith)
  have hB100 : min 100 (dOx * 10) ≤ (100 : ℚ) := min_le_left _ _
  have hB100R : min 100 (dOx / 10 * 100) ≤ (100 : ℚ) := min_le_left _ _
  refine ⟨?_, ?_, fun hdOx => ⟨?_, ?_⟩⟩
  · show (max 0 (100 - |pH - 7.0| * 20) + min 100 (dOx * 10)) / 2 ≤ 100
    linarith
  · show ((jsRound ((max 0 (100 - |pH - 7.0| * 20) +
        min 100 (dOx / 10 * 100)) / 2) : ℤ) : ℚ) ≤ 100
    exact jsRound_le_hundred (by linarith)
  · show 0 ≤ (max 0 (100 - |pH - 7.0| * 20) + min 100 (dOx * 10)) / 2
    have hB0 : (0 : ℚ) ≤ min 100 (dOx * 10) := le_min (by norm_num) (by linarith)
    linarith
  · show (0 : ℚ) ≤ ((jsRound ((max 0 (100 - |pH - 7.0| * 20) +
        min 100 (dOx / 10 * 100)) / 2) : ℤ) : ℚ)
    have hB0 : (0 : ℚ) ≤ min 100 (dOx / 10 * 100) :=
      le_min (by norm_num) (by linarith)
    exact jsRound_nonneg (by linarith)

/-- Concrete instantiation of the amended C8 bounds. -/
theorem quality_index_bounds_witness :
    calculateQualityIndex 7 10 ≤ 100 ∧ 0 ≤ calculateQualityIndex 7 10 :=
  ⟨(quality_index_bounds 7 10).1,
    ((quality_index_bounds 7 10).2.2 (by norm_num)).1⟩

/-- A station's operational status. -/
inductive StationStatus
  | active
  | inactive
  | maintenance
  deriving DecidableEq, Repr

/-- One point of mock historical data (`HistoricalData` in `app/charts.tsx`). -/
structure HistoricalData where
  date : ℤ
  level : ℚ
  temperature : ℚ
  rainfall : ℚ
  pH : ℚ
  dissolved_oxygen : ℚ
  deriving DecidableEq, Repr

/-- An entry of the fixed `INDIAN_LOCATIONS` catalog of `app/charts.tsx`. -/
structure Location where
  state : String
  district : String
  lat : ℚ
  lng : ℚ
  deriving DecidableEq, Repr

/-- A mock monitoring station (`DWLRStation` in `app/charts.tsx`); the
`station_id` string is modelled as its list of character codes. -/
structure DWLRStation where
  station_id : List ℕ
  name : String
  state : String
  district : String
  current_level : ℚ
  status : StationStatus
  trend : Trend
  last_updated : ℤ
  latitude : ℚ
  longitude : ℚ
  historical_data : List HistoricalData
  water_quality : WaterQuality
  deriving DecidableEq, Repr

/-- The `STATION_TYPES` catalog of `app/charts.tsx` (20 entries). -/
def STATION_TYPES : List String :=
  ["Central Monitoring Station", "Urban DWLR Well", "Agricultural Zone Monitor",
   "Industrial Area Station", "Coastal Monitoring Point", "Desert Region Well",
   "Forest Area Monitor", "Railway Station Well", "Highway Junction Station",
   "Market District Monitor", "Residential Area Well",
   "Educational Campus Station", "Hospital Zone Monitor", "Temple Complex Well",
   "Park Area Monitor", "Shopping Mall Station", "Airport Vicinity Well",
   "River Basin Monitor", "Mountain Region Station", "Valley Area Well"]

/-- The `Math.random()` draws one station consumes, as explicit parameters.
`trend2` is only consumed when `trend1 ≥ 0.3` and `status2` only when
`status1 ≥ 0.85`, matching the source's short-circuiting conditionals;
threading unused draws is harmless.  `idSuffix` stands for the character
codes of `Math.random().toString(36).substring(2, 10).toUpperCase()` — an
alphanumeric string of whatever length that draw produced (the id-uniqueness
theorem needs no assumption at all about it). -/
structure StationDraws where
  latOff : ℚ
  lngOff : ℚ
  trend1 : ℚ
  trend2 : ℚ
  level : ℚ
  status1 : ℚ
  status2 : ℚ
  stationType : ℚ
  idSuffix : List ℕ
  histLevel : ℕ → ℚ
  histTemp : ℕ → ℚ
  histRain : ℕ → ℚ
  histPH : ℕ → ℚ
  histDO : ℕ → ℚ

/-- Membership in `[0, 1)`, the range of `Math.random()`. -/
def unitRange (q : ℚ) : Prop := 0 ≤ q ∧ q < 1

/-- All of a station's draws lie in `[0, 1)`. -/
def validDraws (d : StationDraws) : Prop :=
  unitRange d.latOff ∧ unitRange d.lngOff ∧ unitRange d.trend1 ∧
  unitRange d.trend2 ∧ unitRange d.level ∧ unitRange d.status1 ∧
  unitRange d.status2 ∧ unitRange d.stationType ∧
  (∀ n, unitRange (d.histLevel n)) ∧ (∀ n, unitRange (d.histTemp n)) ∧
  (∀ n, unitRange (d.histRain n)) ∧ (∀ n, unitRange (d.histPH n)) ∧
  (∀ n, unitRange (d.histDO n))

/-- The trend draw of `generateMockStations` (`app/charts.tsx` lines
1801–1806): two nested `Math.random()` comparisons. -/
def drawTrend (u1 u2 : ℚ) : Trend :=
  if u1 < 0.3 then .falling else if u2 < 0.6 then .rising else .stable

/-- The status draw of `generateMockStations` (`app/charts.tsx` lines
1810–1815): two nested `Math.random()` comparisons. -/
def drawStatus (u1 u2 : ℚ) : StationStatus :=
  if u1 < 0.85 then .active else if u2 < 0.95 then .maintenance else .inactive

/-- The body of the 90-iteration loop of `generateHistoricalData`
(`app/charts.tsx` lines 1701–1745) at day offset `i`.  `sinVal i` stands for
`Math.sin((i / 365) * 2 * Math.PI)`, used for both the seasonal level term
and the temperature term. -/
def historicalPoint (today : ℤ) (sinVal : ℕ → ℚ) (d : StationDraws)
    (currentLevel : ℚ) (trend : Trend) (i : ℕ) : HistoricalData :=
  let baseLevel :=
    match trend with
    | .falling => currentLevel + (90 - (i : ℚ)) * 0.02 + (d.histLevel i * 1 - 0.5)
    | .rising => currentLevel - (90 - (i : ℚ)) * 0.02 + (d.histLevel i * 1 - 0.5)
    | .stable => currentLevel + (d.histLevel i * 2 - 1)
  let clamped := max 0.5 baseLevel
  let seasonalFactor := 0.5 * sinVal i
  let level := clamped + seasonalFactor
  { date := today - 90 + i
    level := round2 level
    temperature := round1 (20 + d.histTemp i * 15 + sinVal i * 5)
    rainfall := round1 (d.histRain i * 50)
    pH := round1 (6.5 + d.histPH i * 2)
    dissolved_oxygen := round1 (4 + d.histDO i * 6) }

/-- `generateHistoricalData` from `app/charts.tsx` (lines 1701–1745): the
90-day series (day 0 is 90 days before today). -/
def generateHistoricalData (today : ℤ) (sinVal : ℕ → ℚ) (d : StationDraws)
    (currentLevel : ℚ) (trend : Trend) : List HistoricalData :=
  (List.range 90).map (historicalPoint today sinVal d currentLevel trend)

/-- Character codes of `String(n).padStart(3, "0")` for `n ≤ 999` (all uses
have `n ≤ 100`): three decimal digits, ASCII code 48 + digit. -/
def pad3 (n : ℕ) : List ℕ := [48 + n / 100, 48 + n / 10 % 10, 48 + n % 10]

/-- `generateStationId` from `app/charts.tsx` (lines 1776–1786), as character
codes: `"DWLR"` (codes 68, 87, 76, 82), then the 3-digit padded index, then
`substring(0, 4)` of the random alphanumeric suffix. -/
def generateStationId (index : ℕ) (suffix : List ℕ) : List ℕ :=
  [68, 87, 76, 82] ++ pad3 index ++ suffix.take 4

/-- The body of the 100-iteration loop of `generateMockStations`
(`app/charts.tsx` lines 1789–1850) at station index `i`. -/
def mockStation (locations : List Location) (today : ℤ) (sinVal : ℕ → ℚ)
    (d : StationDraws) (i : ℕ) : DWLRStation :=
  let location := locations.getD (i % locations.length) ⟨"", "", 0, 0⟩
  let latOffset := (d.latOff - 0.5) * 0.1
  let lngOffset := (d.lngOff - 0.5) * 0.1
  let trend := drawTrend d.trend1 d.trend2
  let currentLevel := round2 (d.level * 45 + 5)
  let status := drawStatus d.status1 d.status2
  let stationType := STATION_TYPES.getD (⌊d.stationType * 20⌋).toNat ""
  let historicalData := generateHistoricalData today sinVal d currentLevel trend
  let latestData :=
    historicalData.getD (historicalData.length - 1) ⟨0, 0, 0, 0, 0, 0⟩
  let waterQuality :=
    calculateWaterQuality latestData.pH latestData.dissolved_oxygen
  { station_id := generateStationId (i + 1) d.idSuffix
    name := stationType ++ " " ++ toString (i + 1)
    state := location.state
    district := location.district
    current_level := currentLevel
    status := status
    trend := trend
    last_updated := today
    latitude := location.lat + latOffset
    longitude := location.lng + lngOffset
    historical_data := historicalData
    water_quality := waterQuality }

/-- `generateMockStations` from `app/charts.tsx` (lines 1789–1850); the fixed
`INDIAN_LOCATIONS` catalog and the ambient random and sine sources are passed
as parameters (the claims hold for every catalog and every valid outcome of
the draws). -/
def generateMockStations (locations : List Location) (today : ℤ)
    (sinVal : ℕ → ℚ) (ds : ℕ → StationDraws) : List DWLRStation :=
  (List.range 100).map (fun i => mockStation locations today sinVal (ds i) i)

theorem mockStation_station_id (locations : List Location) (today : ℤ)
    (sinVal : ℕ → ℚ) (d : StationDraws) (i : ℕ) :
    (mockStation locations today sinVal d i).station_id
      = generateStationId (i + 1) d.idSuffix := by
  simp only [mockStation]

theorem mockStation_current_level (locations : List Location) (today : ℤ)
    (sinVal : ℕ → ℚ) (d : StationDraws) (i : ℕ) :
    (mockStation locations today sinVal d i).current_level
      = round2 (d.level * 45 + 5) := by
  simp only [mockStation]

theorem mockStation_historical_data (locations : List Location) (today : ℤ)
    (sinVal : ℕ → ℚ) (d : StationDraws) (i : ℕ) :
    (mockStation locations today sinVal d i).historical_data
      = generateHistoricalData today sinVal d (round2 (d.level * 45 + 5))
          (drawTrend d.trend1 d.trend2) := by
  simp only [mockStation]

theorem round2_level_bounds {u : ℚ} (h0 : 0 ≤ u) (h1 : u < 1) :
    5 ≤ round2 (u * 45 + 5) ∧ round2 (u * 45 + 5) ≤ 50 := by
  have hfl : (500 : ℤ) ≤ jsRound ((u * 45 + 5) * 100) := by
    unfold jsRound
    exact Int.le_floor.mpr (by push_cast; linarith)
  have hfu : jsRound ((u * 45 + 5) * 100) ≤ 5000 := by
    have hle : ((⌊(u * 45 + 5) * 100 + 1/2⌋ : ℤ) : ℚ) ≤ (u * 45 + 5) * 100 + 1/2 :=
      Int.floor_le _
    have h2 : ((⌊(u * 45 + 5) * 100 + 1/2⌋ : ℤ) : ℚ) < 5001 := by linarith
    have h3 : (⌊(u * 45 + 5) * 100 + 1/2⌋ : ℤ) < 5001 := by exact_mod_cast h2
    unfold jsRound
    omega
  unfold round2
  constructor
  · have h4 : ((500 : ℤ) : ℚ) ≤ (jsRound ((u * 45 + 5) * 100) : ℚ) := by
      exact_mod_cast hfl
    push_cast at h4
    linarith
  · have h4 : ((jsRound ((u * 45 + 5) * 100) : ℤ) : ℚ) ≤ ((5000 : ℤ) : ℚ) := by
      exact_mod_cast hfu
    push_cast at h4
    linarith

theorem generateStationId_inj {a b : ℕ} (ha : a ≤ 999) (hb : b ≤ 999)
    (sa sb : List ℕ) (h : generateStationId a sa = generateStationId b sb) :
    a = b := by
  simp only [generateStationId, pad3, List.cons_append, List.nil_append,
    List.cons.injEq] at h
  omega

theorem generateHistoricalData_length (today : ℤ) (sinVal : ℕ → ℚ)
    (d : StationDraws) (c : ℚ) (t : Trend) :
    (generateHistoricalData today sinVal d c t).length = 90 := by
  simp [generateHistoricalData]

theorem generateHistoricalData_date (today : ℤ) (sinVal : ℕ → ℚ)
    (d : StationDraws) (c : ℚ) (t : Trend) (j : ℕ)
    (hj : j < (generateHistoricalData today sinVal d c t).length) :
    ((generateHistoricalData today sinVal d c t).get ⟨j, hj⟩).date
      = today - 90 + j := by
  simp only [generateHistoricalData, List.get_map, List.get_range,
    historicalPoint]

/-- Claim C5: for every outcome of the random draws (and every location
catalog and seasonal oracle), the synthesizer returns exactly 100 stations;
every station has exactly 90 historical points with strictly increasing
dates; every station's `current_level` lies in [5, 50]; and all 100
`station_id`s are pairwise distinct (the 3-digit padded index part alone
separates them, whatever the random suffixes are). -/
theorem generateMockStations_invariants (locations : List Location)
    (today : ℤ) (sinVal : ℕ → ℚ) (ds : ℕ → StationDraws)
    (hv : ∀ i, validDraws (ds i)) :
    (generateMockStations locations today sinVal ds).length = 100 ∧
    (∀ s ∈ generateMockStations locations today sinVal ds,
      s.historical_data.length = 90) ∧
    (∀ s ∈ generateMockStations locations today sinVal ds,
      ∀ j k (hj : j < s.historical_data.length)
        (hk : k < s.historical_data.length), j < k →
        (s.historical_data.get ⟨j, hj⟩).date <
          (s.historical_data.get ⟨k, hk⟩).date) ∧
    (∀ s ∈ generateMockStations locations today sinVal ds,
      5 ≤ s.current_level ∧ s.current_level ≤ 50) ∧
    (∀ j k (hj : j < (generateMockStations locations today sinVal ds).length)
      (hk : k < (generateMockStations locations today sinVal ds).length),
      j ≠ k →
      ((generateMockStations locations today sinVal ds).get ⟨j, hj⟩).station_id
        ≠ ((generateMockStations locations today sinVal ds).get
            ⟨k, hk⟩).station_id) := by
  refine ⟨by simp [generateMockStations], ?_, ?_, ?_, ?_⟩
  · intro s hs
    obtain ⟨i, hi, rfl⟩ := List.mem_map.mp hs
    rw [mockStation_historical_data, generateHistoricalData_length]
  · intro s hs j k hj hk hjk
    obtain ⟨i, hi, rfl⟩ := List.mem_map.mp hs
    show ((generateHistoricalData today sinVal (ds i)
        (round2 ((ds i).level * 45 + 5))
        (drawTrend (ds i).trend1 (ds i).trend2)).get ⟨j, hj⟩).date <
      ((generateHistoricalData today sinVal (ds i)
        (round2 ((ds i).level * 45 + 5))
        (drawTrend (ds i).trend1 (ds i).trend2)).get ⟨k, hk⟩).date
    rw [generateHistoricalData_date, generateHistoricalData_date]
    omega
  · intro s hs
    obtain ⟨i, hi, rfl⟩ := List.mem_map.mp hs
    rw [mockStation_current_level]
    obtain ⟨-, -, -, -, hlev, -⟩ := hv i
    exact round2_level_bounds hlev.1 hlev.2
  · intro j k hj hk hjk heq
    have hj100 : j < 100 := by simpa [generateMockStations] using hj
    have hk100 : k < 100 := by simpa [generateMockStations] using hk
    have e1 : ((generateMockStations locations today sinVal ds).get
        ⟨j, hj⟩).station_id = generateStationId (j + 1) (ds j).idSuffix := by
      show (((List.range 100).map
          (fun i => mockStation locations today sinVal (ds i) i)).get
            ⟨j, hj⟩).station_id = _
      simp only [List.get_map, List.get_range, mockStation_station_id]
    have e2 : ((generateMockStations locations today sinVal ds).get
        ⟨k, hk⟩).station_id = generateStationId (k + 1) (ds k).idSuffix := by
      show (((List.range 100).map
          (fun i => mockStation locations today sinVal (ds i) i)).get
            ⟨k, hk⟩).station_id = _
      simp only [List.get_map, List.get_range, mockStation_station_id]
    rw [e1, e2] at heq
    have := generateStationId_inj (by omega) (by omega) _ _ heq
    omega

/-- A fixed all-zero outcome of the draws (a legal value of every
`Math.random()` call). -/
def zeroDraws : StationDraws :=
  ⟨0, 0, 0, 0, 0, 0, 0, 0, [], fun _ => 0, fun _ => 0, fun _ => 0,
    fun _ => 0, fun _ => 0⟩

theorem zeroDraws_valid : validDraws zeroDraws := by
  unfold validDraws zeroDraws unitRange
  norm_num

/-- Concrete instantiation of the C5 synthesizer invariants. -/
theorem generateMockStations_invariants_witness :
    (generateMockStations [] 0 (fun _ => 0) (fun _ => zeroDraws)).length = 100 ∧
    (∀ s ∈ generateMockStations [] 0 (fun _ => 0) (fun _ => zeroDraws),
      s.historical_data.length = 90) ∧
    (∀ s ∈ generateMockStations [] 0 (fun _ => 0) (fun _ => zeroDraws),
      ∀ j k (hj : j < s.historical_data.length)
        (hk : k < s.historical_data.length), j < k →
        (s.historical_data.get ⟨j, hj⟩).date <
          (s.historical_data.get ⟨k, hk⟩).date) ∧
    (∀ s ∈ generateMockStations [] 0 (fun _ => 0) (fun _ => zeroDraws),
      5 ≤ s.current_level ∧ s.current_level ≤ 50) ∧
    (∀ j k (hj : j < (generateMockStations [] 0 (fun _ => 0)
        (fun _ => zeroDraws)).length)
      (hk : k < (generateMockStations [] 0 (fun _ => 0)
        (fun _ => zeroDraws)).length),
      j ≠ k →
      ((generateMockStations [] 0 (fun _ => 0)
          (fun _ => zeroDraws)).get ⟨j, hj⟩).station_id
        ≠ ((generateMockStations [] 0 (fun _ => 0)
            (fun _ => zeroDraws)).get ⟨k, hk⟩).station_id) :=
  generateMockStations_invariants [] 0 (fun _ => 0) (fun _ => zeroDraws)
    (fun _ => zeroDraws_valid)

theorem generateHistoricalData_getD_last (today : ℤ) (sinVal : ℕ → ℚ)
    (d : StationDraws) (c : ℚ) (t : Trend) :
    (generateHistoricalData today sinVal d c t).getD
      ((generateHistoricalData today sinVal d c t).length - 1) ⟨0, 0, 0, 0, 0, 0⟩
      = historicalPoint today sinVal d c t 89 := rfl

theorem round2_close (x : ℚ) : |round2 x - x| ≤ 1/200 := by
  unfold round2 jsRound
  have h1 : ((⌊x * 100 + 1/2⌋ : ℤ) : ℚ) ≤ x * 100 + 1/2 := Int.floor_le _
  have h2 : x * 100 + 1/2 - 1 < ((⌊x * 100 + 1/2⌋ : ℤ) : ℚ) :=
    Int.sub_one_lt_floor _
  rw [abs_le]
  constructor <;> linarith

theorem round2_near {c x : ℚ} (hx : |x - c| ≤ 3/2) :
    |c - round2 x| ≤ 1.505 := by
  have h1 := round2_close x
  have h2 : |c - round2 x| ≤ |round2 x - x| + |x - c| := by
    rw [abs_sub_comm c (round2 x)]
    exact abs_sub_le _ _ _
  have h3 : (1.505 : ℚ) = 1/200 + 3/2 := by norm_num
  linarith

theorem seasonal_bound {b c sv : ℚ} (hb : |b - c| ≤ 1) (hsv : |sv| ≤ 1) :
    |b + 0.5 * sv - c| ≤ 3/2 := by
  have h1 : |b + 0.5 * sv - c| ≤ |b - c| + |0.5 * sv| := by
    have h0 := abs_add (b - c) (0.5 * sv)
    have he : b + 0.5 * sv - c = b - c + 0.5 * sv := by ring
    rw [he]
    exact h0
  have h2 : |0.5 * sv| ≤ 0.5 := by
    rw [abs_mul]
    have : |(0.5 : ℚ)| = 0.5 := by norm_num
    rw [this]
    nlinarith [abs_nonneg sv]
  linarith

/-- Claim C7 fails on the code: the last historical point's level carries the
trend offset, the per-day noise draw, the seasonal term and 2-decimal
rounding, so it generally differs from `current_level`.  With every draw 0
(a legal outcome) and seasonal oracle 0 (bounded by 1, like the true sine),
station 0 gets `current_level = 5` but last historical level
`round2(5 + 0.02 − 0.5) = 4.52`.  Stated as the negation of the claim. -/
theorem current_level_claim_fails :
    ¬ (∀ (locations : List Location) (today : ℤ) (sinVal : ℕ → ℚ)
        (ds : ℕ → StationDraws), (∀ i, validDraws (ds i)) →
        (∀ n, |sinVal n| ≤ 1) →
        ∀ s ∈ generateMockStations locations today sinVal ds,
          s.current_level =
            (s.historical_data.getD (s.historical_data.length - 1)
              ⟨0, 0, 0, 0, 0, 0⟩).level) := by
  intro h
  have hmem : mockStation [] 0 (fun _ => 0) zeroDraws 0 ∈
      generateMockStations [] 0 (fun _ => 0) (fun _ => zeroDraws) := by
    unfold generateMockStations
    exact List.mem_map.mpr ⟨0, by simp, rfl⟩
  have h0 := h [] 0 (fun _ => 0) (fun _ => zeroDraws)
    (fun _ => zeroDraws_valid) (fun n => by norm_num) _ hmem
  rw [mockStation_current_level, mockStation_historical_data,
    generateHistoricalData_getD_last] at h0
  have hcl : round2 (zeroDraws.level * 45 + 5) = 5 := by
    show round2 ((0 : ℚ) * 45 + 5) = 5
    unfold round2 jsRound
    norm_num
  have htr : drawTrend zeroDraws.trend1 zeroDraws.trend2 = Trend.falling := by
    show drawTrend 0 0 = Trend.falling
    unfold drawTrend
    norm_num
  rw [hcl, htr] at h0
  have hlast : (historicalPoint 0 (fun _ => 0) zeroDraws 5 Trend.falling
      89).level = 4.52 := by
    show round2 (max 0.5 ((5 : ℚ) + (90 - (89 : ℕ)) * 0.02 +
      ((0 : ℚ) * 1 - 0.5)) + 0.5 * 0) = 4.52
    rw [max_eq_right (by push_cast; norm_num)]
    unfold round2 jsRound
    push_cast
    norm_num
  rw [hlast] at h0
  norm_num at h0

/-- Claim C7 (amended): at synthesis time a station's `current_level` agrees
with the level of the last point of its `historical_data` only up to the
generator's trend offset, noise draw, seasonal term and rounding: for every
valid outcome of the draws and every seasonal oracle bounded by 1 in
absolute value, the two differ by at most 1.505 metres. -/
theorem current_level_near_last_level (locations : List Location) (today : ℤ)
    (sinVal : ℕ → ℚ) (ds : ℕ → StationDraws) (hv : ∀ i, validDraws (ds i))
    (hsin : ∀ n, |sinVal n| ≤ 1) :
    ∀ s ∈ generateMockStations locations today sinVal ds,
      |s.current_level -
        (s.historical_data.getD (s.historical_data.length - 1)
          ⟨0, 0, 0, 0, 0, 0⟩).level| ≤ 1.505 := by
  intro s hs
  obtain ⟨i, hi, rfl⟩ := List.mem_map.mp hs
  rw [mockStation_current_level, mockStation_historical_data,
    generateHistoricalData_getD_last]
  obtain ⟨-, -, -, -, hlev, -, -, -, hhl, -⟩ := hv i
  obtain ⟨hc5, hc50⟩ := round2_level_bounds hlev.1 hlev.2
  obtain ⟨hv0, hv1⟩ := hhl 89
  have hsv := hsin 89
  set c := round2 ((ds i).level * 45 + 5) with hc
  cases htr : drawTrend (ds i).trend1 (ds i).trend2 with
  | rising =>
    simp only [historicalPoint]
    push_cast
    refine round2_near (seasonal_bound ?_ (hsin 89))
    rw [max_eq_right (by linarith)]
    rw [abs_le]
    constructor <;> linarith
  | falling =>
    simp only [historicalPoint]
    push_cast
    refine round2_near (seasonal_bound ?_ (hsin 89))
    rw [max_eq_right (by linarith)]
    rw [abs_le]
    constructor <;> linarith
  | stable =>
    simp only [historicalPoint]
    push_cast
    refine round2_near (seasonal_bound ?_ (hsin 89))
    rw [max_eq_right (by linarith)]
    rw [abs_le]
    constructor <;> linarith

/-- Concrete instantiation of the amended C7 bound, at station 0 of an
all-zero outcome of the draws. -/
theorem current_level_near_last_level_witness :
    |(mockStation [] 0 (fun _ => 0) zeroDraws 0).current_level -
      ((mockStation [] 0 (fun _ => 0) zeroDraws 0).historical_data.getD
        ((mockStation [] 0 (fun _ => 0) zeroDraws 0).historical_data.length - 1)
        ⟨0, 0, 0, 0, 0, 0⟩).level| ≤ 1.505 :=
  current_level_near_last_level [] 0 (fun _ => 0) (fun _ => zeroDraws)
    (fun _ => zeroDraws_valid) (fun n => by norm_num)
    (mockStation [] 0 (fun _ => 0) zeroDraws 0)
    (List.mem_map.mpr ⟨0, by simp, rfl⟩)

/-- The status draw over real-valued draws, for the probability statement;
it agrees with `drawStatus` on rationals (`drawStatusR_ratCast`). -/
noncomputable def drawStatusR (u1 u2 : ℝ) : StationStatus :=
  if u1 < 0.85 then .active else if u2 < 0.95 then .maintenance else .inactive

theorem drawStatusR_ratCast (u1 u2 : ℚ) :
    drawStatusR (u1 : ℝ) (u2 : ℝ) = drawStatus u1 u2 := by
  have hc1 : ((u1 : ℝ) < 0.85) ↔ (u1 < 0.85) := by
    rw [show (0.85 : ℝ) = ((0.85 : ℚ) : ℝ) by norm_num]
    exact Rat.cast_lt
  have hc2 : ((u2 : ℝ) < 0.95) ↔ (u2 < 0.95) := by
    rw [show (0.95 : ℝ) = ((0.95 : ℚ) : ℝ) by norm_num]
    exact Rat.cast_lt
  unfold drawStatusR drawStatus
  by_cases h1 : u1 < 0.85
  · rw [if_pos (hc1.mpr h1), if_pos h1]
  · rw [if_neg (fun hc => h1 (hc1.mp hc)), if_neg h1]
    by_cases h2 : u2 < 0.95
    · rw [if_pos (hc2.mpr h2), if_pos h2]
    · rw [if_neg (fun hc => h2 (hc2.mp hc)), if_neg h2]

/-- The region of the unit square of the two independent uniform draws that
the compound status conditional maps to a given status. -/
def statusRegion (st : StationStatus) : Set (ℝ × ℝ) :=
  {p : ℝ × ℝ | p.1 ∈ Set.Ico (0 : ℝ) 1 ∧ p.2 ∈ Set.Ico (0 : ℝ) 1 ∧
    drawStatusR p.1 p.2 = st}

theorem statusRegion_active :
    statusRegion .active = Set.Ico (0 : ℝ) 0.85 ×ˢ Set.Ico (0 : ℝ) 1 := by
  ext ⟨x, y⟩
  simp only [statusRegion, Set.mem_setOf_eq, Set.mem_prod, Set.mem_Ico,
    drawStatusR]
  constructor
  · rintro ⟨⟨hx0, hx1⟩, ⟨hy0, hy1⟩, heq⟩
    split_ifs at heq with h1 h2
    all_goals first
      | exact ⟨⟨hx0, h1⟩, hy0, hy1⟩
      | simp at heq
  · rintro ⟨⟨hx0, hx85⟩, hy0, hy1⟩
    refine ⟨⟨hx0, by linarith⟩, ⟨hy0, hy1⟩, ?_⟩
    rw [if_pos hx85]

theorem statusRegion_maintenance :
    statusRegion .maintenance
      = Set.Ico (0.85 : ℝ) 1 ×ˢ Set.Ico (0 : ℝ) 0.95 := by
  ext ⟨x, y⟩
  simp only [statusRegion, Set.mem_setOf_eq, Set.mem_prod, Set.mem_Ico,
    drawStatusR]
  constructor
  · rintro ⟨⟨hx0, hx1⟩, ⟨hy0, hy1⟩, heq⟩
    split_ifs at heq with h1 h2
    all_goals first
      | exact ⟨⟨not_lt.mp h1, hx1⟩, hy0, h2⟩
      | simp at heq
  · rintro ⟨⟨hx85, hx1⟩, hy0, hy95⟩
    refine ⟨⟨by linarith, hx1⟩, ⟨hy0, by linarith⟩, ?_⟩
    rw [if_neg (not_lt.mpr hx85), if_pos hy95]

theorem statusRegion_inactive :
    statusRegion .inactive
      = Set.Ico (0.85 : ℝ) 1 ×ˢ Set.Ico (0.95 : ℝ) 1 := by
  ext ⟨x, y⟩
  simp only [statusRegion, Set.mem_setOf_eq, Set.mem_prod, Set.mem_Ico,
    drawStatusR]
  constructor
  · rintro ⟨⟨hx0, hx1⟩, ⟨hy0, hy1⟩, heq⟩
    split_ifs at heq with h1 h2
    all_goals first
      | exact ⟨⟨not_lt.mp h1, hx1⟩, not_lt.mp h2, hy1⟩
      | simp at heq
  · rintro ⟨⟨hx85, hx1⟩, hy95, hy1⟩
    refine ⟨⟨by linarith, hx1⟩, ⟨by linarith, hy1⟩, ?_⟩
    rw [if_neg (not_lt.mpr hx85), if_neg (not_lt.mpr hy95)]

theorem volume_statusRegion_maintenance :
    MeasureTheory.volume (statusRegion .maintenance)
      = ENNReal.ofReal 0.1425 := by
  rw [statusRegion_maintenance, MeasureTheory.Measure.volume_eq_prod,
    MeasureTheory.Measure.prod_prod, Real.volume_Ico, Real.volume_Ico,
    ← ENNReal.ofReal_mul (by norm_num)]
  congr 1
  norm_num

/-- Claim C6 fails on the code: the compound status conditional draws TWO
independent uniforms (`Math.random() < 0.85 ? active : Math.random() < 0.95
? maintenance : inactive`), so the probability of `maintenance` is
0.15 × 0.95 = 0.1425, not the claimed 0.10 (and `inactive` gets 0.0075, not
0.05). -/
theorem status_probability_claim_fails :
    MeasureTheory.volume (statusRegion .maintenance)
      ≠ ENNReal.ofReal 0.10 := by
  rw [volume_statusRegion_maintenance]
  intro h
  rw [ENNReal.ofReal_eq_ofReal_iff (by norm_num) (by norm_num)] at h
  norm_num at h

/-- Claim C6 (amended): over the two independent uniform draws of the
compound conditional, the measure of the region mapped to `active` is 0.85,
to `maintenance` 0.15 × 0.95 = 0.1425, and to `inactive`
0.15 × 0.05 = 0.0075. -/
theorem status_probabilities :
    MeasureTheory.volume (statusRegion .active) = ENNReal.ofReal 0.85 ∧
    MeasureTheory.volume (statusRegion .maintenance)
      = ENNReal.ofReal 0.1425 ∧
    MeasureTheory.volume (statusRegion .inactive)
      = ENNReal.ofReal 0.0075 := by
  refine ⟨?_, volume_statusRegion_maintenance, ?_⟩
  · rw [statusRegion_active, MeasureTheory.Measure.volume_eq_prod,
      MeasureTheory.Measure.prod_prod, Real.volume_Ico, Real.volume_Ico,
      ← ENNReal.ofReal_mul (by norm_num)]
    congr 1
    norm_num
  · rw [statusRegion_inactive, MeasureTheory.Measure.volume_eq_prod,
      MeasureTheory.Measure.prod_prod, Real.volume_Ico, Real.volume_Ico,
      ← ENNReal.ofReal_mul (by norm_num)]
    congr 1
    norm_num
